import Mathlib

/-!
Shallow embedding of the `ChannelConsumptionContract` Stylus contract
(`src/contracts/consumption.rs`, `src/utils/eip712.rs`, `src/utils/errors.rs`,
`src/utils/solidity.rs`).

Modelling choices:
* 256-bit EVM words (`U256`, `B256`, `FixedBytes<32>`, addresses) are `Nat`;
  wherever the Rust code performs `U256` arithmetic, the result is reduced
  modulo `2^256` explicitly (`ruint`'s `Add` for `Uint` is wrapping).
* Byte strings are `List Nat`; `keccak` and the two external calls
  (`ecrecover` precompile, `isAuthorized` registry call) are fields of an
  `Env` record, since their implementations live outside this repository
  (host environment / precompile / external contract).
* Returning `Except.error` from an external method reverts the transaction
  in the Stylus execution model, so the `tx…` wrappers restore the pre-call
  state on error; emitted events are returned alongside the new state.
-/

namespace AntiCheat

/-- The constant `2^256`, the modulus of EVM 256-bit words. -/
def U256MOD : Nat := 2 ^ 256

/-- Error enumeration from `src/utils/errors.rs`. -/
inductive Errors where
  | AlreadyInitialized
  | CallError
  | EcRecoverError
  | InvalidPlatformSignature
deriving DecidableEq, Repr

/-- The `CcuPushed(address indexed user, bytes32 channelId, uint256 totalConsumption)`
event from `src/contracts/consumption.rs`. -/
structure CcuPushed where
  user : Nat
  channelId : Nat
  totalConsumption : Nat
deriving DecidableEq, Repr

/-- The host environment and the external collaborators of the contract:
`msg::sender()`, `block::chainid()`, `block::timestamp()`, `contract::address()`,
the keccak host function, the `ecrecover` precompile (the repository's
`utils/signature.rs` wrapper is not part of the sources; recovery either
yields a 20-byte address or fails), and the external content registry's
`isAuthorized(contentId, caller)` call (keyed also by the callee address;
`none` models a call-level failure, `some b` a successful call returning `b`). -/
structure Env where
  sender : Nat
  chainid : Nat
  timestamp : Nat
  contractAddress : Nat
  keccak : List Nat → List Nat
  ecrecover : List Nat → Nat → Nat → Nat → Option Nat
  isAuthorized : Nat → Nat → Nat → Option Bool

/-- UTF-8 bytes of a string literal (all literals in the sources are ASCII). -/
def utf8 (s : String) : List Nat := s.toUTF8.toList.map (fun b => b.toNat)

/-- Produces `k` bytes, big-endian, of `n mod 256^k` — the ABI word encoding of a
`uint256` / left-padded `address` / `bytes32` value. -/
def beBytes : Nat → Nat → List Nat
  | 0, _ => []
  | k + 1, n => beBytes k (n / 256) ++ [n % 256]

/-- First-occurrence lookup in the `user_consumptions` storage map; unseen
keys read as zero (EVM storage default). -/
def mapGet : List (Nat × Nat) → Nat → Nat
  | [], _ => 0
  | (k', v') :: rest, k => if k' = k then v' else mapGet rest k

/-- Storage-map write: overwrite the first entry for the key, or append. -/
def mapSet : List (Nat × Nat) → Nat → Nat → List (Nat × Nat)
  | [], k, v => [(k, v)]
  | (k', v') :: rest, k, v =>
      if k' = k then (k, v) :: rest else (k', v') :: mapSet rest k v

/-- Sum of all per-user consumption records. -/
def sumUsers (m : List (Nat × Nat)) : Nat := (m.map Prod.snd).sum

/-- Contract storage: the fields of `ChannelConsumptionContract` plus the
borrowed `Ownable` owner slot and the borrowed `Eip712` cache slots. -/
structure ChannelConsumptionContract where
  user_consumptions : List (Nat × Nat)
  nutty_content_id : Nat
  content_registry : Nat
  total_consumption : Nat
  owner : Nat
  cached_chain_id : Nat
  cached_domain_separator : List Nat
deriving DecidableEq, Repr

/-- Freshly deployed contract: every storage slot reads as zero. -/
def initialState : ChannelConsumptionContract :=
  { user_consumptions := []
    nutty_content_id := 0
    content_registry := 0
    total_consumption := 0
    owner := 0
    cached_chain_id := 0
    cached_domain_separator := List.replicate 32 0 }

/-- Static field `NAME = "ChannelConsumption"` of the `ConsumptionParam` `Eip712Params`. -/
def eip712NAME : String := "ChannelConsumption"

/-- Static field `VERSION = "0.0.1"` of the `ConsumptionParam` `Eip712Params`. -/
def eip712VERSION : String := "0.0.1"

/-- The EIP-712 domain type string hashed in `compute_domain_separator`. -/
def eip712DomainTypeBytes : List Nat :=
  utf8 ("EIP712Domain(string name,string version,uint256 chainId,address verifyingContract)")

/-- The `(bytes32, bytes32, bytes32, uint256, address)` encoding fed to
`keccak` by `Eip712::compute_domain_separator`. -/
def domainSeparatorPreimage (env : Env) : List Nat :=
  env.keccak eip712DomainTypeBytes ++
  env.keccak (utf8 eip712NAME) ++
  env.keccak (utf8 eip712VERSION) ++
  beBytes 32 env.chainid ++
  beBytes 32 env.contractAddress

/-- Embeds `Eip712::compute_domain_separator` (`src/utils/eip712.rs`). -/
def compute_domain_separator (env : Env) : List Nat :=
  env.keccak (domainSeparatorPreimage env)

/-- Embeds `Eip712::domain_separator` (`src/utils/eip712.rs`): return the cached
digest on a chain-id hit, otherwise recompute and refresh both cache slots.
Returns the digest together with the (possibly updated) storage. -/
def domain_separator (env : Env) (st : ChannelConsumptionContract) :
    List Nat × ChannelConsumptionContract :=
  if env.chainid = st.cached_chain_id then
    (st.cached_domain_separator, st)
  else
    let ds := compute_domain_separator env
    (ds, { st with cached_chain_id := env.chainid, cached_domain_separator := ds })

/-- Embeds `Eip712::recover_typed_data_signer` (`src/utils/eip712.rs`): build the
66-byte `0x19 0x01 ‖ domainSeparator ‖ structHash` preimage, hash it, and run
`ecrecover`; a recovery failure is mapped to `EcRecoverError`. -/
def recover_typed_data_signer (env : Env) (st : ChannelConsumptionContract)
    (struct_hash : List Nat) (v r s : Nat) :
    Except Errors (Nat × ChannelConsumptionContract) :=
  let ds := domain_separator env st
  let digest_input := [0x19, 0x01] ++ ds.1 ++ struct_hash
  match env.ecrecover (env.keccak digest_input) v r s with
  | none => .error .EcRecoverError
  | some recovered_address => .ok (recovered_address, ds.2)

/-- Embeds `Eip712::read_domain_separator`, the `domainSeparator()` external view:
always a fresh recomputation, never touches the cache. -/
def read_domain_separator (env : Env) : Except Errors (List Nat) :=
  .ok (compute_domain_separator env)

/-- The `ValidateConsumption(...)` type-descriptor string hashed in `push_ccu`. -/
def validateConsumptionTypeBytes : List Nat :=
  utf8 ("ValidateConsumption(address user,bytes32 channelId,uint256 addedConsumption,uint256 deadline)")

/-- The `(bytes32, address, bytes32, uint256, uint256)` ABI encoding that
`push_ccu` hashes into its struct hash: type hash, then `user`, `channelId`,
`addedConsumption`, `deadline`, each as one 32-byte word. -/
def structHashPreimage (env : Env) (user channel_id added_consumption deadline : Nat) :
    List Nat :=
  env.keccak validateConsumptionTypeBytes ++
  beBytes 32 user ++
  beBytes 32 channel_id ++
  beBytes 32 added_consumption ++
  beBytes 32 deadline

/-- Embeds `ChannelConsumptionContract::_check_validator_role`: remote
`isAuthorized(nutty_content_id, validator)` call against `content_registry`;
call failure becomes `CallError`, a `false` result `InvalidPlatformSignature`. -/
def _check_validator_role (env : Env) (st : ChannelConsumptionContract)
    (validator : Nat) : Except Errors Unit :=
  match env.isAuthorized st.content_registry st.nutty_content_id validator with
  | none => .error .CallError
  | some true => .ok ()
  | some false => .error .InvalidPlatformSignature

/-- Embeds `ChannelConsumptionContract::initialize` (Lean reserves the name
`initialize`): guarded by the stored owner
being the zero sentinel; on success transfers ownership and sets the
content id and registry address. -/
def initContract (st : ChannelConsumptionContract)
    (owner nutty_content_id content_registry : Nat) :
    Except Errors ChannelConsumptionContract :=
  if st.owner ≠ 0 then
    .error .AlreadyInitialized
  else
    .ok { st with
            owner := owner
            nutty_content_id := nutty_content_id
            content_registry := content_registry }

/-- Embeds `ChannelConsumptionContract::push_ccu`: rebuild the signed struct hash
with `user = msg::sender()`, recover the signer, check its validator role
(silently succeeding as a no-op on any authorization failure), then apply the
wrapping ledger update, emitting the event before persisting. Returns the new
storage and the list of events emitted by the call. -/
def push_ccu (env : Env) (st : ChannelConsumptionContract)
    (channel_id added_consumption deadline v r s : Nat) :
    Except Errors (ChannelConsumptionContract × List CcuPushed) :=
  let user := env.sender
  let struct_hash :=
    env.keccak (structHashPreimage env user channel_id added_consumption deadline)
  match recover_typed_data_signer env st struct_hash v r s with
  | .error e => .error e
  | .ok (recovered_address, st1) =>
    match _check_validator_role env st1 recovered_address with
    | .error _ => .ok (st1, [])
    | .ok _ =>
      let total_consumption :=
        (mapGet st1.user_consumptions user + added_consumption) % U256MOD
      let ev : CcuPushed :=
        { user := user, channelId := channel_id, totalConsumption := total_consumption }
      let st2 :=
        { st1 with
            user_consumptions := mapSet st1.user_consumptions user total_consumption
            total_consumption :=
              (st1.total_consumption + added_consumption) % U256MOD }
      .ok (st2, [ev])

/-- Embeds `getUserConsumption(user)`: pure read, zero for unseen users. -/
def get_user_consumption (st : ChannelConsumptionContract) (user : Nat) :
    Except Errors Nat :=
  .ok (mapGet st.user_consumptions user)

/-- Embeds `getTotalConsumption()`: pure read of the aggregate counter. -/
def get_total_consumption (st : ChannelConsumptionContract) : Except Errors Nat :=
  .ok st.total_consumption

/-- Transaction semantics of an `initialize` call: an error return reverts,
restoring the pre-call storage. -/
def txInit (st : ChannelConsumptionContract)
    (owner nutty_content_id content_registry : Nat) :
    ChannelConsumptionContract × Except Errors Unit :=
  match initContract st owner nutty_content_id content_registry with
  | .ok st' => (st', .ok ())
  | .error e => (st, .error e)

/-- Transaction semantics of a `pushCcu` call: an error return reverts,
restoring the pre-call storage and discarding the event. -/
def txPushCcu (env : Env) (st : ChannelConsumptionContract)
    (channel_id added_consumption deadline v r s : Nat) :
    ChannelConsumptionContract × List CcuPushed × Except Errors Unit :=
  match push_ccu env st channel_id added_consumption deadline v r s with
  | .ok (st', evs) => (st', evs, .ok ())
  | .error e => (st, [], .error e)

/-- States reachable from a fresh deployment through the two mutating
external operations (a reverted call leaves the state unchanged, so only
successful calls matter for reachability). -/
inductive Reachable : ChannelConsumptionContract → Prop
  | deploy : Reachable initialState
  | initStep {st st' : ChannelConsumptionContract} {w cid reg : Nat} :
      Reachable st → initContract st w cid reg = .ok st' → Reachable st'
  | pushStep {env : Env} {st st' : ChannelConsumptionContract}
      {cid add dl v r s : Nat} {evs : List CcuPushed} :
      Reachable st → push_ccu env st cid add dl v r s = .ok (st', evs) →
      Reachable st'

end AntiCheat

namespace AntiCheat

/-- The struct hash `push_ccu` computes for a call by `env.sender` with the
given `channelId`, `addedConsumption` and `deadline`. -/
def pushStructHash (env : Env) (channel_id added_consumption deadline : Nat) :
    List Nat :=
  env.keccak (structHashPreimage env env.sender channel_id added_consumption deadline)

/-- The digest `push_ccu` hands to the `ecrecover` precompile: keccak of the
`0x19 0x01 ‖ domainSeparator ‖ structHash` preimage. -/
def pushDigest (env : Env) (st : ChannelConsumptionContract)
    (channel_id added_consumption deadline : Nat) : List Nat :=
  env.keccak ([0x19, 0x01] ++ (domain_separator env st).1 ++
    pushStructHash env channel_id added_consumption deadline)

theorem domain_separator_snd_user_consumptions (env : Env)
    (st : ChannelConsumptionContract) :
    ((domain_separator env st).2).user_consumptions = st.user_consumptions := by
  unfold domain_separator; split <;> rfl

theorem domain_separator_snd_total (env : Env) (st : ChannelConsumptionContract) :
    ((domain_separator env st).2).total_consumption = st.total_consumption := by
  unfold domain_separator; split <;> rfl

theorem domain_separator_snd_registry (env : Env) (st : ChannelConsumptionContract) :
    ((domain_separator env st).2).content_registry = st.content_registry := by
  unfold domain_separator; split <;> rfl

theorem domain_separator_snd_content_id (env : Env) (st : ChannelConsumptionContract) :
    ((domain_separator env st).2).nutty_content_id = st.nutty_content_id := by
  unfold domain_separator; split <;> rfl

theorem domain_separator_snd_owner (env : Env) (st : ChannelConsumptionContract) :
    ((domain_separator env st).2).owner = st.owner := by
  unfold domain_separator; split <;> rfl

/-- Characterisation of `push_ccu` by the result of `ecrecover` on `pushDigest`. -/
theorem push_ccu_eq_match (env : Env) (st : ChannelConsumptionContract)
    (cid add dl v r s : Nat) :
    push_ccu env st cid add dl v r s =
      match env.ecrecover (pushDigest env st cid add dl) v r s with
      | none => .error .EcRecoverError
      | some a =>
        let st1 := (domain_separator env st).2
        match _check_validator_role env st1 a with
        | .error _ => .ok (st1, [])
        | .ok _ =>
          let total_consumption :=
            (mapGet st1.user_consumptions env.sender + add) % U256MOD
          .ok ({ st1 with
                   user_consumptions :=
                     mapSet st1.user_consumptions env.sender total_consumption
                   total_consumption :=
                     (st1.total_consumption + add) % U256MOD },
               [{ user := env.sender, channelId := cid,
                  totalConsumption := total_consumption }]) := by
  simp only [push_ccu, recover_typed_data_signer, pushDigest, pushStructHash]
  rcases env.ecrecover (env.keccak ([25, 1] ++ (domain_separator env st).1 ++
      env.keccak (structHashPreimage env env.sender cid add dl))) v r s with _ | a
  · rfl
  · rfl

end AntiCheat

namespace AntiCheat

/-- A concrete environment for evaluating the embedding on closed inputs:
caller `12`, chain id `1`, contract address `14`, a constant keccak, a
recovery oracle answering `rec` and an authorization oracle answering `auth`. -/
def testEnv (rec : Option Nat) (auth : Option Bool) : Env :=
  { sender := 12
    chainid := 1
    timestamp := 0
    contractAddress := 14
    keccak := fun _ => List.replicate 32 0
    ecrecover := fun _ _ _ _ => rec
    isAuthorized := fun _ _ _ => auth }

/-- C1: if the authorization check on the recovered signer fails — the remote
`isAuthorized` call errors or returns `false` — then `pushCcu` returns `Ok`,
the caller's consumption record and the aggregate total are exactly as before,
and no event is emitted. -/
theorem pushCcu_auth_failure_is_silent_noop (env : Env)
    (st : ChannelConsumptionContract) (cid add dl v r s a : Nat)
    (hrec : env.ecrecover (pushDigest env st cid add dl) v r s = some a)
    (hauth : env.isAuthorized st.content_registry st.nutty_content_id a ≠ some true) :
    ∃ st', push_ccu env st cid add dl v r s = .ok (st', []) ∧
      st'.user_consumptions = st.user_consumptions ∧
      st'.total_consumption = st.total_consumption := by
  refine ⟨(domain_separator env st).2, ?_,
    domain_separator_snd_user_consumptions env st, domain_separator_snd_total env st⟩
  rw [push_ccu_eq_match, hrec]
  show (match _check_validator_role env (domain_separator env st).2 a with
        | .error _ => Except.ok ((domain_separator env st).2, ([] : List CcuPushed))
        | .ok _ => _) = _
  unfold _check_validator_role
  rw [domain_separator_snd_registry, domain_separator_snd_content_id]
  rcases h : env.isAuthorized st.content_registry st.nutty_content_id a with _ | b
  · rfl
  · cases b
    · rfl
    · exact absurd h hauth

/-- Witness for C1: a concrete call whose signer recovers to address `9` and
whose authorization query answers `false` is a silent no-op. -/
theorem pushCcu_auth_failure_is_silent_noop_witness :
    ∃ st', push_ccu (testEnv (some 9) (some false)) initialState 1 2 3 27 4 5 =
        .ok (st', []) ∧
      st'.user_consumptions = initialState.user_consumptions ∧
      st'.total_consumption = initialState.total_consumption :=
  pushCcu_auth_failure_is_silent_noop (testEnv (some 9) (some false)) initialState
    1 2 3 27 4 5 9 rfl (by decide)

/-- C5: if elliptic-curve recovery fails on the digest `pushCcu` builds, the
call returns the `EcRecoverError` error (no panic: a plain error value), and
the reverting transaction leaves all contract state unchanged and emits
nothing. -/
theorem pushCcu_ecrecover_failure_reverts (env : Env)
    (st : ChannelConsumptionContract) (cid add dl v r s : Nat)
    (hrec : env.ecrecover (pushDigest env st cid add dl) v r s = none) :
    push_ccu env st cid add dl v r s = .error .EcRecoverError ∧
    txPushCcu env st cid add dl v r s = (st, [], .error .EcRecoverError) := by
  have h : push_ccu env st cid add dl v r s = .error .EcRecoverError := by
    rw [push_ccu_eq_match, hrec]
  exact ⟨h, by unfold txPushCcu; rw [h]⟩

/-- Witness for C5: a concrete call on which the recovery oracle fails yields
`EcRecoverError` and an unchanged state. -/
theorem pushCcu_ecrecover_failure_reverts_witness :
    push_ccu (testEnv none (some true)) initialState 1 2 3 27 4 5 =
      .error .EcRecoverError ∧
    txPushCcu (testEnv none (some true)) initialState 1 2 3 27 4 5 =
      (initialState, [], .error .EcRecoverError) :=
  pushCcu_ecrecover_failure_reverts (testEnv none (some true)) initialState
    1 2 3 27 4 5 rfl

/-- C10: calling `initialize` with the zero address as owner succeeds but
stores a zero owner, so the `AlreadyInitialized` guard does not trip and a
subsequent `initialize` call succeeds as well. -/
theorem initContract_zero_owner_guard_not_tripped
    (st : ChannelConsumptionContract) (h : st.owner = 0)
    (cid reg w2 cid2 reg2 : Nat) :
    ∃ st', initContract st 0 cid reg = .ok st' ∧ st'.owner = 0 ∧
      ∃ st'', initContract st' w2 cid2 reg2 = .ok st'' := by
  refine ⟨{ st with owner := 0, nutty_content_id := cid, content_registry := reg },
    ?_, rfl, ?_⟩
  · unfold initContract
    simp [h]
  · exact ⟨{ st with owner := w2, nutty_content_id := cid2, content_registry := reg2 },
      by unfold initContract; simp⟩

/-- Witness for C10: on a fresh deployment, `initialize(0, 7, 9)` succeeds,
leaves the owner zero, and a second `initialize` succeeds. -/
theorem initContract_zero_owner_guard_not_tripped_witness :
    ∃ st', initContract initialState 0 7 9 = .ok st' ∧ st'.owner = 0 ∧
      ∃ st'', initContract st' 5 1 2 = .ok st'' :=
  initContract_zero_owner_guard_not_tripped initialState rfl 7 9 5 1 2

/-- Counterexample to C4 as stated: `initialize(0, 7, 9)` on a fresh
deployment succeeds, yet the subsequent `initialize(5, 1, 2)` also succeeds
(and even changes the owner), so a successful `initialize` is not always
followed by `AlreadyInitialized` failures. -/
theorem initContract_succeeds_twice_from_zero_owner :
    initContract initialState 0 7 9 =
      .ok { initialState with
              owner := 0
              nutty_content_id := 7
              content_registry := 9 } ∧
    initContract { initialState with
        owner := 0
        nutty_content_id := 7
        content_registry := 9 } 5 1 2 =
      .ok { initialState with
              owner := 5
              nutty_content_id := 1
              content_registry := 2 } := by
  constructor
  · rfl
  · rfl

/-- States reachable from a given state through any finite sequence of
subsequent external calls: a reverted call leaves the state unchanged, so
only successful `initialize` and `pushCcu` transactions matter. -/
inductive ReachableFrom :
    ChannelConsumptionContract → ChannelConsumptionContract → Prop
  | refl (st : ChannelConsumptionContract) : ReachableFrom st st
  | initStep {st0 st st' : ChannelConsumptionContract} {w cid reg : Nat} :
      ReachableFrom st0 st → initContract st w cid reg = .ok st' →
      ReachableFrom st0 st'
  | pushStep {env : Env} {st0 st st' : ChannelConsumptionContract}
      {cid add dl v r s : Nat} {evs : List CcuPushed} :
      ReachableFrom st0 st → push_ccu env st cid add dl v r s = .ok (st', evs) →
      ReachableFrom st0 st'

/-- A successful `push_ccu` never touches the owner slot. -/
theorem push_ccu_ok_preserves_owner {env : Env}
    {st st' : ChannelConsumptionContract} {cid add dl v r s : Nat}
    {evs : List CcuPushed}
    (h : push_ccu env st cid add dl v r s = .ok (st', evs)) :
    st'.owner = st.owner := by
  rw [push_ccu_eq_match] at h
  rcases hrec : env.ecrecover (pushDigest env st cid add dl) v r s with _ | a <;>
    rw [hrec] at h
  · simp at h
  · dsimp only at h
    rcases hrole : _check_validator_role env (domain_separator env st).2 a with e | u <;>
      rw [hrole] at h <;>
      simp only [Except.ok.injEq, Prod.mk.injEq] at h
    · obtain ⟨h1, h2⟩ := h
      subst h1
      exact domain_separator_snd_owner env st
    · obtain ⟨h1, h2⟩ := h
      subst h1
      simp [domain_separator_snd_owner]

/-- A non-zero stored owner persists across every sequence of subsequent
calls: pushes leave the owner slot untouched and `initialize` cannot succeed
while the owner is non-zero. -/
theorem reachableFrom_owner_ne_zero {st0 st : ChannelConsumptionContract}
    (h : ReachableFrom st0 st) (h0 : st0.owner ≠ 0) : st.owner ≠ 0 := by
  induction h with
  | refl => exact h0
  | initStep hr hstep ih =>
    unfold initContract at hstep
    rw [if_pos (ih h0)] at hstep
    simp at hstep
  | pushStep hr hstep ih =>
    rw [push_ccu_ok_preserves_owner hstep]
    exact ih h0

/-- C4 (amended): after any `initialize` that succeeds *with a non-zero owner
argument*, every subsequent `initialize` call — issued in any later state
reached through further transactions, including intervening `pushCcu` calls —
fails with `AlreadyInitialized` and the reverting transaction leaves owner,
content id and registry unchanged. -/
theorem initContract_once_with_nonzero_owner
    (st st' st2 : ChannelConsumptionContract) (w cid reg : Nat) (hw : w ≠ 0)
    (hsucc : initContract st w cid reg = .ok st')
    (hreach : ReachableFrom st' st2) (w2 cid2 reg2 : Nat) :
    initContract st2 w2 cid2 reg2 = .error .AlreadyInitialized ∧
    txInit st2 w2 cid2 reg2 = (st2, .error .AlreadyInitialized) := by
  have howner : st'.owner ≠ 0 := by
    unfold initContract at hsucc
    split at hsucc
    · exact absurd hsucc (by simp)
    · simp only [Except.ok.injEq] at hsucc
      subst hsucc
      exact hw
  have h2 : st2.owner ≠ 0 := reachableFrom_owner_ne_zero hreach howner
  have h1 : initContract st2 w2 cid2 reg2 = .error .AlreadyInitialized := by
    unfold initContract
    rw [if_pos h2]
  exact ⟨h1, by unfold txInit; rw [h1]⟩

/-- The state after `initialize(5, 7, 9)` on a fresh deployment followed by
one successful authorized push of `2` by caller `12` (which also refreshed
the chain-id cache). -/
def stAfterPush : ChannelConsumptionContract :=
  { user_consumptions := [(12, 2)]
    nutty_content_id := 7
    content_registry := 9
    total_consumption := 2
    owner := 5
    cached_chain_id := 1
    cached_domain_separator := List.replicate 32 0 }

/-- Witness for the amended C4: after `initialize(5, 7, 9)` on a fresh
deployment and an intervening successful `pushCcu` transaction, a later
`initialize(8, 1, 2)` still fails with `AlreadyInitialized` and changes
nothing. -/
theorem initContract_once_with_nonzero_owner_witness :
    initContract stAfterPush 8 1 2 = .error .AlreadyInitialized ∧
    txInit stAfterPush 8 1 2 = (stAfterPush, .error .AlreadyInitialized) :=
  initContract_once_with_nonzero_owner initialState
    { initialState with
        owner := 5
        nutty_content_id := 7
        content_registry := 9 }
    stAfterPush 5 7 9 (by decide) rfl
    (ReachableFrom.pushStep
      (ReachableFrom.refl { initialState with
        owner := 5
        nutty_content_id := 7
        content_registry := 9 })
      (show push_ccu (testEnv (some 9) (some true))
          { initialState with
              owner := 5
              nutty_content_id := 7
              content_registry := 9 } 1 2 0 27 4 5 =
        .ok (stAfterPush, [{ user := 12, channelId := 1, totalConsumption := 2 }])
        from rfl))
    8 1 2

/-- C7: on a chain-id hit the cached digest is returned unchanged and — when
the cache was filled by a computation under the same environment — equals a
fresh recomputation; on a chain-id miss the digest is recomputed and both
cache slots are overwritten with the fresh values. -/
theorem domain_separator_cache_coherent (env : Env)
    (st : ChannelConsumptionContract) :
    (st.cached_chain_id = env.chainid →
      st.cached_domain_separator = compute_domain_separator env →
      domain_separator env st = (compute_domain_separator env, st)) ∧
    (st.cached_chain_id ≠ env.chainid →
      domain_separator env st =
        (compute_domain_separator env,
          { st with
              cached_chain_id := env.chainid
              cached_domain_separator := compute_domain_separator env })) := by
  constructor
  · intro h1 h2
    unfold domain_separator
    rw [if_pos h1.symm, h2]
  · intro h1
    unfold domain_separator
    rw [if_neg (fun hh => h1 hh.symm)]

/-- Witness for C7: a coherent cache is returned as-is and equals the fresh
value; a stale chain id forces a recomputation that refreshes both slots. -/
theorem domain_separator_cache_coherent_witness :
    domain_separator (testEnv (some 9) (some true))
        { initialState with
          cached_chain_id := 1
          cached_domain_separator := List.replicate 32 0 } =
      (compute_domain_separator (testEnv (some 9) (some true)),
       { initialState with
         cached_chain_id := 1
         cached_domain_separator := List.replicate 32 0 }) ∧
    domain_separator { testEnv (some 9) (some true) with chainid := 2 }
        initialState =
      (compute_domain_separator { testEnv (some 9) (some true) with chainid := 2 },
       { initialState with
         cached_chain_id := 2
         cached_domain_separator :=
           compute_domain_separator
             { testEnv (some 9) (some true) with chainid := 2 } }) :=
  ⟨(domain_separator_cache_coherent (testEnv (some 9) (some true))
      { initialState with
        cached_chain_id := 1
        cached_domain_separator := List.replicate 32 0 }).1 rfl rfl,
   (domain_separator_cache_coherent { testEnv (some 9) (some true) with chainid := 2 }
      initialState).2 (by decide)⟩

end AntiCheat

namespace AntiCheat

theorem mapGet_mapSet_self (m : List (Nat × Nat)) (k v : Nat) :
    mapGet (mapSet m k v) k = v := by
  induction m with
  | nil => simp [mapSet, mapGet]
  | cons hd tl ih =>
    obtain ⟨k', v'⟩ := hd
    by_cases h : k' = k <;> simp [mapSet, mapGet, h, ih]

/-- Shape of a `push_ccu` call whose signer recovers and is authorized: the
wrapping ledger update is applied to the caller's record and to the aggregate
counter, and one event carrying the wrapped per-user total is emitted. -/
theorem push_ccu_authorized_eq (env : Env) (st : ChannelConsumptionContract)
    (cid add dl v r s a : Nat)
    (hrec : env.ecrecover (pushDigest env st cid add dl) v r s = some a)
    (hauth : env.isAuthorized st.content_registry st.nutty_content_id a = some true) :
    push_ccu env st cid add dl v r s =
      .ok ({ (domain_separator env st).2 with
              user_consumptions := mapSet st.user_consumptions env.sender
                ((mapGet st.user_consumptions env.sender + add) % U256MOD)
              total_consumption := (st.total_consumption + add) % U256MOD },
           [{ user := env.sender, channelId := cid,
              totalConsumption :=
                (mapGet st.user_consumptions env.sender + add) % U256MOD }]) := by
  have hrole : _check_validator_role env (domain_separator env st).2 a = .ok () := by
    unfold _check_validator_role
    rw [domain_separator_snd_registry, domain_separator_snd_content_id, hauth]
  rw [push_ccu_eq_match, hrec]
  dsimp only
  rw [hrole, domain_separator_snd_user_consumptions, domain_separator_snd_total]

/-- C2 (amended): when recovery succeeds on the digest `pushCcu` builds, the
recovered signer passes the authorization check, and neither the caller's
counter nor the aggregate counter would exceed `2^256 - 1`, the call
increases `getUserConsumption` of the caller and `getTotalConsumption` by
exactly `addedConsumption` and emits exactly one `CcuPushed` event whose
`totalConsumption` is the caller's new per-user total. -/
theorem pushCcu_authorized_increments (env : Env)
    (st : ChannelConsumptionContract) (cid add dl v r s a : Nat)
    (hrec : env.ecrecover (pushDigest env st cid add dl) v r s = some a)
    (hauth : env.isAuthorized st.content_registry st.nutty_content_id a = some true)
    (hu : mapGet st.user_consumptions env.sender + add < U256MOD)
    (ht : st.total_consumption + add < U256MOD) :
    ∃ st', push_ccu env st cid add dl v r s =
        .ok (st', [{ user := env.sender, channelId := cid,
                     totalConsumption :=
                       mapGet st.user_consumptions env.sender + add }]) ∧
      get_user_consumption st' env.sender =
        .ok (mapGet st.user_consumptions env.sender + add) ∧
      get_total_consumption st' = .ok (st.total_consumption + add) := by
  have key := push_ccu_authorized_eq env st cid add dl v r s a hrec hauth
  rw [Nat.mod_eq_of_lt hu, Nat.mod_eq_of_lt ht] at key
  refine ⟨_, key, ?_, ?_⟩
  · simp [get_user_consumption, mapGet_mapSet_self]
  · simp [get_total_consumption]

/-- Witness for the amended C2: on a fresh deployment an authorized push of
`10` by caller `12` yields per-user and aggregate totals of `10` and one
event reporting `10`. -/
theorem pushCcu_authorized_increments_witness :
    ∃ st', push_ccu (testEnv (some 9) (some true)) initialState 1 10 0 27 4 5 =
        .ok (st', [{ user := 12, channelId := 1, totalConsumption := 10 }]) ∧
      get_user_consumption st' 12 = .ok 10 ∧
      get_total_consumption st' = .ok 10 :=
  pushCcu_authorized_increments (testEnv (some 9) (some true)) initialState
    1 10 0 27 4 5 9 rfl rfl (by decide) (by decide)

/-- State with the caller's consumption record at the maximal `U256` value
and a coherent chain-id cache. -/
def stMaxUser : ChannelConsumptionContract :=
  { initialState with
      user_consumptions := [(12, U256MOD - 1)]
      cached_chain_id := 1 }

/-- Counterexample to C2 as stated: with the caller's record at `2^256 - 1`,
an authorized push of `1` succeeds but leaves the caller's consumption at
`0`, which is not the old value increased by the added amount — the per-user
counter wrapped. -/
theorem pushCcu_wrap_breaks_exact_increment :
    push_ccu (testEnv (some 9) (some true)) stMaxUser 1 1 0 27 4 5 =
      .ok ({ stMaxUser with
              user_consumptions := [(12, 0)]
              total_consumption := 1 },
           [{ user := 12, channelId := 1, totalConsumption := 0 }]) ∧
    get_user_consumption { stMaxUser with
        user_consumptions := [(12, 0)]
        total_consumption := 1 } 12 = .ok 0 ∧
    (0 : Nat) ≠ (U256MOD - 1) + 1 := by
  refine ⟨?_, by rfl, by decide⟩
  have key := push_ccu_authorized_eq (testEnv (some 9) (some true)) stMaxUser
    1 1 0 27 4 5 9 rfl rfl
  rw [key]
  rfl

/-- State with the caller's record and the aggregate counter both at the
maximal `U256` value (and a coherent chain-id cache). -/
def stMaxBoth : ChannelConsumptionContract :=
  { initialState with
      user_consumptions := [(12, U256MOD - 1)]
      total_consumption := U256MOD - 1
      cached_chain_id := 1 }

/-- C3: evaluation of `pushCcu` at the overflow input. With both counters at
`2^256 - 1`, an authorized push of `1` returns `Ok` and both counters wrap
to `0` (the emitted event also reports `0`): the `U256` additions in
`push_ccu` wrap modulo `2^256` instead of failing with an arithmetic-overflow
condition. -/
theorem pushCcu_overflow_silently_truncates :
    push_ccu (testEnv (some 9) (some true)) stMaxBoth 2 1 0 28 6 7 =
      .ok ({ stMaxBoth with
              user_consumptions := [(12, 0)]
              total_consumption := 0 },
           [{ user := 12, channelId := 2, totalConsumption := 0 }]) ∧
    get_user_consumption { stMaxBoth with
        user_consumptions := [(12, 0)]
        total_consumption := 0 } 12 = .ok 0 ∧
    get_total_consumption { stMaxBoth with
        user_consumptions := [(12, 0)]
        total_consumption := 0 } = .ok 0 := by
  refine ⟨?_, by rfl, by rfl⟩
  have key := push_ccu_authorized_eq (testEnv (some 9) (some true)) stMaxBoth
    2 1 0 28 6 7 9 rfl rfl
  rw [key]
  rfl

end AntiCheat

namespace AntiCheat

theorem sumUsers_mapSet (m : List (Nat × Nat)) (k v : Nat) :
    sumUsers (mapSet m k v) + mapGet m k = sumUsers m + v := by
  induction m with
  | nil => simp [sumUsers, mapSet, mapGet]
  | cons hd tl ih =>
    obtain ⟨k', v'⟩ := hd
    by_cases h : k' = k
    · simp [sumUsers, mapSet, mapGet, h]
      omega
    · simp only [sumUsers, List.map_cons, List.sum_cons, mapSet, mapGet,
        if_neg h] at ih ⊢
      omega

/-- A successful `initialize` touches neither counter storage slot. -/
theorem initContract_ok_preserves_ledger {st st' : ChannelConsumptionContract}
    {w cid reg : Nat} (h : initContract st w cid reg = .ok st') :
    st'.user_consumptions = st.user_consumptions ∧
    st'.total_consumption = st.total_consumption := by
  unfold initContract at h
  split at h
  · exact absurd h (by simp)
  · simp only [Except.ok.injEq] at h
    subst h
    exact ⟨rfl, rfl⟩

/-- Inversion for a successful `push_ccu` call: either the authorization
check failed and the counters are untouched, or both counters received the
same wrapping increment. -/
theorem push_ccu_ok_inversion {env : Env} {st st' : ChannelConsumptionContract}
    {cid add dl v r s : Nat} {evs : List CcuPushed}
    (h : push_ccu env st cid add dl v r s = .ok (st', evs)) :
    (st'.user_consumptions = st.user_consumptions ∧
     st'.total_consumption = st.total_consumption) ∨
    (st'.user_consumptions =
        mapSet st.user_consumptions env.sender
          ((mapGet st.user_consumptions env.sender + add) % U256MOD) ∧
     st'.total_consumption = (st.total_consumption + add) % U256MOD) := by
  rw [push_ccu_eq_match] at h
  rcases hrec : env.ecrecover (pushDigest env st cid add dl) v r s with _ | a <;>
    rw [hrec] at h
  · simp at h
  · dsimp only at h
    rcases hrole : _check_validator_role env (domain_separator env st).2 a with e | u <;>
      rw [hrole] at h <;>
      simp only [Except.ok.injEq, Prod.mk.injEq] at h
    · obtain ⟨h1, h2⟩ := h
      subst h1
      exact .inl ⟨domain_separator_snd_user_consumptions env st,
        domain_separator_snd_total env st⟩
    · obtain ⟨h1, h2⟩ := h
      subst h1
      exact .inr ⟨by simp [domain_separator_snd_user_consumptions],
        by simp [domain_separator_snd_total]⟩

end AntiCheat

namespace AntiCheat

/-- The wrapping ledger update of `push_ccu` preserves the mod-`2^256`
relation between the aggregate counter and the sum of the per-user records. -/
theorem wrap_update_preserves_sum (m : List (Nat × Nat)) (u add : Nat) :
    (sumUsers m % U256MOD + add) % U256MOD =
      sumUsers (mapSet m u ((mapGet m u + add) % U256MOD)) % U256MOD := by
  have hchain : sumUsers (mapSet m u ((mapGet m u + add) % U256MOD)) + mapGet m u ≡
      (sumUsers m + add) + mapGet m u [MOD U256MOD] := by
    calc sumUsers (mapSet m u ((mapGet m u + add) % U256MOD)) + mapGet m u
        = sumUsers m + (mapGet m u + add) % U256MOD :=
          sumUsers_mapSet m u ((mapGet m u + add) % U256MOD)
      _ ≡ sumUsers m + (mapGet m u + add) [MOD U256MOD] :=
          Nat.ModEq.add_left _ (Nat.mod_modEq _ _)
      _ = (sumUsers m + add) + mapGet m u := by omega
  rw [Nat.mod_add_mod]
  exact (Nat.ModEq.add_right_cancel' _ hchain).symm

/-- C6: in every reachable state the aggregate counter `total_consumption`
equals the sum of all per-user consumption records (in 256-bit arithmetic,
i.e. modulo `2^256`): every successful `pushCcu` applies the same increment
to the caller's record and to the aggregate counter in one atomic unit, and
no other operation touches either counter. -/
theorem reachable_total_eq_sumUsers (st : ChannelConsumptionContract)
    (h : Reachable st) :
    st.total_consumption = sumUsers st.user_consumptions % U256MOD := by
  induction h with
  | deploy => simp [initialState, sumUsers]
  | initStep hr hstep ih =>
    obtain ⟨h1, h2⟩ := initContract_ok_preserves_ledger hstep
    rw [h1, h2, ih]
  | pushStep hr hstep ih =>
    rcases push_ccu_ok_inversion hstep with ⟨h1, h2⟩ | ⟨h1, h2⟩
    · rw [h1, h2, ih]
    · rw [h1, h2, ih]
      exact wrap_update_preserves_sum _ _ _

/-- Witness for C6: the invariant holds at a reachable state, here the
freshly deployed one. -/
theorem reachable_total_eq_sumUsers_witness :
    initialState.total_consumption =
      sumUsers initialState.user_consumptions % U256MOD :=
  reachable_total_eq_sumUsers initialState Reachable.deploy

end AntiCheat

namespace AntiCheat

theorem beBytes_length (k n : Nat) : (beBytes k n).length = k := by
  induction k generalizing n with
  | zero => rfl
  | succ k ih => simp [beBytes, ih]

/-- In a well-formed state (the cached separator slot holds 32 bytes, as a
`StorageB256` always does) the digest `domain_separator` returns is 32 bytes
long whenever `keccak` produces 32-byte digests. -/
theorem domain_separator_fst_length (env : Env) (st : ChannelConsumptionContract)
    (hk : ∀ b, (env.keccak b).length = 32)
    (hc : st.cached_domain_separator.length = 32) :
    ((domain_separator env st).1).length = 32 := by
  unfold domain_separator
  split
  · exact hc
  · exact hk _

/-- C8: the digest `pushCcu` hands to `ecrecover` is the keccak hash of a
66-byte preimage — the two prefix bytes `0x19 0x01`, the 32-byte domain
separator and the 32-byte struct hash — where the struct hash is the keccak
hash of the `ValidateConsumption` type-descriptor hash followed by the
caller identity `msg.sender`, `channelId`, `addedConsumption` and `deadline`,
in exactly that order; and `pushCcu` fails with `EcRecoverError` exactly when
`ecrecover` fails on this digest. -/
theorem pushCcu_digest_structure (env : Env) (st : ChannelConsumptionContract)
    (cid add dl v r s : Nat)
    (hk : ∀ b, (env.keccak b).length = 32)
    (hc : st.cached_domain_separator.length = 32) :
    ([0x19, 0x01] ++ (domain_separator env st).1 ++
        pushStructHash env cid add dl).length = 66 ∧
    pushDigest env st cid add dl =
      env.keccak ([0x19, 0x01] ++ (domain_separator env st).1 ++
        env.keccak (env.keccak validateConsumptionTypeBytes ++
          beBytes 32 env.sender ++ beBytes 32 cid ++ beBytes 32 add ++
          beBytes 32 dl)) ∧
    (push_ccu env st cid add dl v r s = .error .EcRecoverError ↔
      env.ecrecover (pushDigest env st cid add dl) v r s = none) := by
  refine ⟨?_, rfl, ?_, ?_⟩
  · simp [pushStructHash, hk, domain_separator_fst_length env st hk hc]
  · intro h
    rw [push_ccu_eq_match] at h
    rcases hrec : env.ecrecover (pushDigest env st cid add dl) v r s with _ | a
    · rfl
    · rw [hrec] at h
      dsimp only at h
      rcases hrole : _check_validator_role env (domain_separator env st).2 a with e | u <;>
        rw [hrole] at h <;> simp at h
  · intro h
    rw [push_ccu_eq_match, h]

/-- Witness for C8 at a concrete environment and the freshly deployed state. -/
theorem pushCcu_digest_structure_witness :
    ([0x19, 0x01] ++
        (domain_separator (testEnv (some 9) (some true)) initialState).1 ++
        pushStructHash (testEnv (some 9) (some true)) 1 2 3).length = 66 ∧
    pushDigest (testEnv (some 9) (some true)) initialState 1 2 3 =
      (testEnv (some 9) (some true)).keccak ([0x19, 0x01] ++
        (domain_separator (testEnv (some 9) (some true)) initialState).1 ++
        (testEnv (some 9) (some true)).keccak
          ((testEnv (some 9) (some true)).keccak validateConsumptionTypeBytes ++
            beBytes 32 (testEnv (some 9) (some true)).sender ++ beBytes 32 1 ++
            beBytes 32 2 ++ beBytes 32 3)) ∧
    (push_ccu (testEnv (some 9) (some true)) initialState 1 2 3 27 4 5 =
        .error .EcRecoverError ↔
      (testEnv (some 9) (some true)).ecrecover
        (pushDigest (testEnv (some 9) (some true)) initialState 1 2 3) 27 4 5 =
        none) :=
  pushCcu_digest_structure (testEnv (some 9) (some true)) initialState 1 2 3 27 4 5
    (fun b => by simp [testEnv]) (by simp [initialState])

/-- C9: the outcome of `pushCcu` — status, state change and events — is
independent of the current time, and the deadline influences the outcome
only through the signed struct hash: for any two clock readings and any two
deadlines whose struct hashes coincide, the call produces identical results.
No code path compares the deadline to the current time. -/
theorem pushCcu_time_independent_deadline_only_hashed (env : Env)
    (t1 t2 : Nat) (st : ChannelConsumptionContract)
    (cid add dl1 dl2 v r s : Nat)
    (hsh : env.keccak (structHashPreimage env env.sender cid add dl1) =
           env.keccak (structHashPreimage env env.sender cid add dl2)) :
    push_ccu { env with timestamp := t1 } st cid add dl1 v r s =
    push_ccu { env with timestamp := t2 } st cid add dl2 v r s := by
  have htime : ∀ t dl, push_ccu { env with timestamp := t } st cid add dl v r s =
      push_ccu env st cid add dl v r s := fun _ _ => rfl
  rw [htime, htime]
  have hdig : pushDigest env st cid add dl1 = pushDigest env st cid add dl2 := by
    unfold pushDigest pushStructHash
    rw [hsh]
  rw [push_ccu_eq_match, push_ccu_eq_match, hdig]
  rfl

/-- Witness for C9: with equal deadlines (hence equal struct hashes) and two
different clock readings, the two calls agree. -/
theorem pushCcu_time_independent_witness :
    push_ccu { testEnv (some 9) (some true) with timestamp := 0 }
        initialState 1 2 7 27 4 5 =
      push_ccu { testEnv (some 9) (some true) with timestamp := 99 }
        initialState 1 2 7 27 4 5 :=
  pushCcu_time_independent_deadline_only_hashed (testEnv (some 9) (some true))
    0 99 initialState 1 2 7 7 27 4 5 rfl

end AntiCheat
